import Mathlib

/-!
# hng::nullsafety — a shallow embedding of `nullsafety.h`

The header defines two wrappers around a pointer-like value type `P`:
`notnull<P>` and `derefnullchecked<P>`, the error `nullptr_error`, the free
functions `swap`, `exchange`, `throw_if_null`, and the span reinterpretation
functions `as_span_of_notnull` / `as_span_of_derefnullchecked`.

Modelling conventions.

* `P` is a value type.  A copy of a `P` is the same Lean value; a move hands the
  same value to the destination and leaves `movedFrom v` in the source object.
* What the header needs from `P` is collected in `PtrOps`: contextual conversion
  to `bool`, `operator*`, `P()`, `P(nullptr)`, the moved-from state, and the two
  compile-time facts the header queries.
* A C++ function that can throw returns `Except nullptr_error _`; a function
  that mutates objects returns their new states next to the result, so the
  state after a throw can be read off as well.
* Arguments are objects distinct from the object operated on, unless an
  operation takes two positions of the same store (see `Op`) or its forwarding
  reference is bound to the member of the object itself (see `Candidate`).
* A span is a start address and a length over a `Memory`; a span of wrappers
  reads the same cells, reinterpreted.
-/

set_option autoImplicit false

namespace hng
namespace nullsafety

/-! ## The error type and the capabilities of `P` -/

/-- The exception class `nullptr_error` (header line 22): it has one value. -/
inductive nullptr_error where
  | mk
  deriving DecidableEq, Repr

/-- The message passed to `runtime_error` by the constructor of `nullptr_error` (line 25). -/
def nullptr_error.what (_ : nullptr_error) : String := "pointer is null"

/-- The capabilities of the wrapped type `P` that the header uses; `R` is what `*p` yields. -/
structure PtrOps (P : Type) (R : Type) where
  /-- The contextual conversion `static_cast<bool>(p)`; `!p` is its negation. -/
  truthy : P → Bool
  /-- The dereference `*p` of `P` itself. -/
  deref : P → R
  /-- The value-initialised `P()`. -/
  dflt : P
  /-- The value `P(nullptr)`, for those `P` that are constructible from `std::nullptr_t`. -/
  nullp : P
  /-- The state in which a `P` object holding the given value is left after being moved from. -/
  movedFrom : P → P
  /-- Whether `std::is_default_constructible_v<P>` holds and `static_cast<bool>(P())`
  is a constant expression (`detail::is_constexpr`, lines 32-34). -/
  default_is_constexpr : Bool
  /-- The trait `std::is_nothrow_default_constructible_v<P>`. -/
  nothrow_default_constructible : Bool

/-- The value category of an argument expression: the forwarding references of the header
copy from an lvalue and move from an rvalue. -/
inductive ValueCategory where
  | lvalue
  | rvalue
  deriving DecidableEq, Repr

section StdModel

variable {P R : Type}

/-- The call `std::swap(a, b)`: returns the new values of `a` and of `b`. -/
def std_swap (a b : P) : P × P := (b, a)

/-- The call `std::exchange(obj, new_value)`: `old = move(obj); obj = new_value; return old`.
Returns the returned value and the new value of `obj`. -/
def std_exchange (obj new_value : P) : P × P :=
  let old_value := obj
  (old_value, new_value)

/-- The copy constructor of `P` used as an in-place constructor: the built value and the
argument afterwards. -/
def P_copy_ctor (v : P) : P × P := (v, v)

/-- The move constructor of `P` used as an in-place constructor: the built value and the
argument afterwards. -/
def P_move_ctor (ops : PtrOps P R) (v : P) : P × P := (v, ops.movedFrom v)

/-- The state of a source object of value `v` after it has been forwarded into a new `P`. -/
def forwarded (ops : PtrOps P R) (c : ValueCategory) (v : P) : P :=
  match c with
  | .lvalue => v
  | .rvalue => ops.movedFrom v

end StdModel

/-- What the forwarding reference `U&& newVal` of `exchange_inner_ptr` and of `exchange` is
bound to: a `P` object other than the member of `n`, holding `v` and passed as an lvalue or as
an rvalue; or the member of `n` itself, a const lvalue, as in `n.exchange_inner_ptr(n.ptr())`. -/
inductive Candidate (P : Type) where
  | object (c : ValueCategory) (v : P)
  | own_member
  deriving DecidableEq, Repr

section CandidateModel

variable {P R : Type}

/-- The value the candidate holds when the call starts, `w` being what `n` contains. -/
def Candidate.value (w : P) : Candidate P → P
  | .object _ v => v
  | .own_member => w

/-- The candidate object after a call: the separate object in the state `source`, or the
member of `n` in its state `member`. -/
def Candidate.after (member source : P) : Candidate P → P
  | .object _ _ => source
  | .own_member => member

/-- The call `std::exchange(obj, std::forward<U>(new_value))` with a `new_value` that may
refer to `obj`: `T old_value = std::move(obj); obj = std::forward<U>(new_value);
return old_value;`.  With `new_value` bound to `obj` itself the assignment is a copy of the
moved-from `obj` onto itself.  Returns the returned value, `obj` afterwards, and the object
`new_value` refers to afterwards. -/
def std_exchange_forward (ops : PtrOps P R) (obj : P) : Candidate P → P × P × P
  | .object c v => ((std_exchange obj v).1, (std_exchange obj v).2, forwarded ops c v)
  | .own_member =>
    let old_value := obj
    let obj1 := ops.movedFrom obj
    (old_value, obj1, obj1)

end CandidateModel

/-! ## The two wrappers -/

/-- The class `notnull<P>` (lines 44-160): its single data member. -/
structure notnull (P : Type) where
  m_ptr : P
  deriving DecidableEq, Repr

/-- The class `derefnullchecked<P>` (lines 178-244): its single data member. -/
structure derefnullchecked (P : Type) where
  m_ptr : P
  deriving DecidableEq, Repr

/-- The outcome of `exchange_inner_ptr` and of `exchange` on a `notnull<P>`: the `notnull`
afterwards, the candidate object afterwards, and what the call returned or threw. -/
structure ExchangeOutcome (P α : Type) where
  wrapper : notnull P
  candidate : P
  result : Except nullptr_error α

/-- The outcome of a constructor that may be declared `noexcept`: an object, an exception that
reaches the caller, or `std::terminate` when the exception meets the `noexcept` boundary. -/
inductive CtorOutcome (α : Type) where
  | constructed (a : α)
  | threw (e : nullptr_error)
  | terminated
  deriving DecidableEq, Repr

namespace derefnullchecked

variable {P R : Type}

/-- The defaulted default constructor (line 184): `m_ptr = P()`. -/
def default_ctor (ops : PtrOps P R) : derefnullchecked P := ⟨ops.dflt⟩

/-- The constructor `derefnullchecked(std::nullptr_t)` (line 185). -/
def of_nullptr (ops : PtrOps P R) : derefnullchecked P := ⟨ops.nullp⟩

/-- The constructor `derefnullchecked(P&&)` (line 186): the source afterwards and the object. -/
def of_move (ops : PtrOps P R) (ptr : P) : P × derefnullchecked P := (ops.movedFrom ptr, ⟨ptr⟩)

/-- The constructor `derefnullchecked(P const&)` (line 187). -/
def of_copy (ptr : P) : derefnullchecked P := ⟨ptr⟩

/-- The defaulted move constructor (line 188): the source afterwards and the object. -/
def move_ctor (ops : PtrOps P R) (other : derefnullchecked P) :
    derefnullchecked P × derefnullchecked P :=
  (⟨ops.movedFrom other.m_ptr⟩, ⟨other.m_ptr⟩)

/-- The defaulted copy constructor (line 189). -/
def copy_ctor (other : derefnullchecked P) : derefnullchecked P := ⟨other.m_ptr⟩

/-- The in-place constructor (lines 190-194): `ctor` is the constructor of `P` selected by the
arguments; returns the arguments afterwards and the object. -/
def in_place {A : Type} (ctor : A → P × A) (args : A) : A × derefnullchecked P :=
  ((ctor args).2, ⟨(ctor args).1⟩)

/-- The constructor `derefnullchecked(notnull<P> const&)` (lines 195-198). -/
def of_notnull (other : notnull P) : derefnullchecked P := ⟨other.m_ptr⟩

/-- The assignment `operator=(std::nullptr_t)` (line 199). -/
def assign_nullptr (ops : PtrOps P R) (_self : derefnullchecked P) : derefnullchecked P :=
  ⟨ops.nullp⟩

/-- The defaulted move assignment (line 200): the new `*this` and the source afterwards. -/
def move_assign (ops : PtrOps P R) (_self other : derefnullchecked P) :
    derefnullchecked P × derefnullchecked P :=
  (⟨other.m_ptr⟩, ⟨ops.movedFrom other.m_ptr⟩)

/-- The defaulted copy assignment (line 201). -/
def copy_assign (_self other : derefnullchecked P) : derefnullchecked P := ⟨other.m_ptr⟩

/-- The assignment `operator=(P ptr)` (lines 202-206): swaps the parameter in. -/
def assign (self : derefnullchecked P) (ptr : P) : derefnullchecked P :=
  ⟨(std_swap self.m_ptr ptr).1⟩

/-- The member `swap(derefnullchecked&)` (lines 207-210): the new `*this` and the new `other`. -/
def swap (self other : derefnullchecked P) : derefnullchecked P × derefnullchecked P :=
  (⟨(std_swap self.m_ptr other.m_ptr).1⟩, ⟨(std_swap self.m_ptr other.m_ptr).2⟩)

/-- The member `swap(P&)` (lines 211-214): the new `*this` and the new `other`. -/
def swap_P (self : derefnullchecked P) (other : P) : derefnullchecked P × P :=
  (⟨(std_swap self.m_ptr other).1⟩, (std_swap self.m_ptr other).2)

/-- The accessor `ptr()` (lines 215-216). -/
def ptr (self : derefnullchecked P) : P := self.m_ptr

/-- The conversion `operator P const&` (line 217). -/
def decay (self : derefnullchecked P) : P := self.m_ptr

/-- The conversion `operator bool` (lines 218-220). -/
def operator_bool (ops : PtrOps P R) (self : derefnullchecked P) : Bool := ops.truthy self.m_ptr

/-- The operator `operator!` (lines 221-223). -/
def operator_not (ops : PtrOps P R) (self : derefnullchecked P) : Bool := !ops.truthy self.m_ptr

/-- The dereference `operator*` (lines 224-231): checks, then `*m_ptr`. -/
def operator_star (ops : PtrOps P R) (self : derefnullchecked P) : Except nullptr_error R :=
  if !operator_bool ops self then .error .mk else .ok (ops.deref self.m_ptr)

/-- The member access `operator->` (lines 232-239): checks, then hands out `m_ptr`, on which
the language applies the `->` of `P`. -/
def operator_arrow (ops : PtrOps P R) (self : derefnullchecked P) : Except nullptr_error P :=
  if !operator_bool ops self then .error .mk else .ok self.m_ptr

end derefnullchecked

namespace notnull

variable {P R : Type}

/-- The tagged constructor taking `P&&` (line 50): no check; the source afterwards and the
object. -/
def unsafe_of_move (ops : PtrOps P R) (ptr : P) : P × notnull P := (ops.movedFrom ptr, ⟨ptr⟩)

/-- The tagged constructor taking `P const&` (line 51): no check. -/
def unsafe_of_copy (ptr : P) : notnull P := ⟨ptr⟩

/-- The tagged in-place constructor (lines 52-56): no check. -/
def unsafe_in_place {A : Type} (ctor : A → P × A) (args : A) : A × notnull P :=
  ((ctor args).2, ⟨(ctor args).1⟩)

/-- The condition of the `requires` clauses on the two move constructors (lines 80 and 87). -/
def has_static_truthy_default (ops : PtrOps P R) : Bool :=
  ops.default_is_constexpr && ops.truthy ops.dflt

/-- The default constructor (lines 57-59): `m_ptr = P()`, then the check; the function is
`noexcept` exactly when `P` is nothrow default constructible. -/
def default_ctor (ops : PtrOps P R) : CtorOutcome (notnull P) :=
  let m_ptr := ops.dflt
  if !ops.truthy m_ptr then
    (if ops.nothrow_default_constructible then .terminated else .threw .mk)
  else .constructed ⟨m_ptr⟩

/-- The constructor `notnull(P&&)` (lines 62-67): the lambda checks, then moves.  Returns the
source afterwards and the outcome. -/
def of_move (ops : PtrOps P R) (ptr : P) : P × Except nullptr_error (notnull P) :=
  if !ops.truthy ptr then (ptr, .error .mk)
  else (ops.movedFrom ptr, .ok ⟨ptr⟩)

/-- The constructor `notnull(P const&)` (lines 68-73): the lambda checks, then copies.  Returns
the source afterwards and the outcome. -/
def of_copy (ops : PtrOps P R) (ptr : P) : P × Except nullptr_error (notnull P) :=
  if !ops.truthy ptr then (ptr, .error .mk)
  else (ptr, .ok ⟨ptr⟩)

/-- The constructor selected for a forwarded `P` argument of the given value category. -/
def of_forwarded (ops : PtrOps P R) (c : ValueCategory) (ptr : P) :
    P × Except nullptr_error (notnull P) :=
  match c with
  | .lvalue => of_copy ops ptr
  | .rvalue => of_move ops ptr

/-- The defaulted copy constructor (line 78). -/
def copy_ctor (other : notnull P) : notnull P := ⟨other.m_ptr⟩

/-- The move constructor (lines 79-90): with a statically truthy `P()` it default-initialises
`m_ptr` and swaps with `other`; otherwise it delegates to the copy constructor.  Returns the
object and `other` afterwards. -/
def move_ctor (ops : PtrOps P R) (other : notnull P) : notnull P × notnull P :=
  if has_static_truthy_default ops then
    let m_ptr := ops.dflt
    (⟨(std_swap m_ptr other.m_ptr).1⟩, ⟨(std_swap m_ptr other.m_ptr).2⟩)
  else
    (copy_ctor other, other)

/-- The in-place constructor (lines 91-96): builds `m_ptr` from the arguments, then checks.
Returns the arguments afterwards and the outcome. -/
def in_place {A : Type} (ops : PtrOps P R) (ctor : A → P × A) (args : A) :
    A × Except nullptr_error (notnull P) :=
  let m_ptr := (ctor args).1
  let args1 := (ctor args).2
  if !ops.truthy m_ptr then (args1, .error .mk) else (args1, .ok ⟨m_ptr⟩)

/-- The constructor `notnull(derefnullchecked<P>&&)` (lines 97-100): delegates to
`notnull(P&&)` on `other.ptr()`.  Returns `other` afterwards and the outcome. -/
def of_derefnullchecked_move (ops : PtrOps P R) (other : derefnullchecked P) :
    derefnullchecked P × Except nullptr_error (notnull P) :=
  (⟨(of_move ops other.ptr).1⟩, (of_move ops other.ptr).2)

/-- The constructor `notnull(derefnullchecked<P> const&)` (lines 101-104): delegates to
`notnull(P const&)` on `other.ptr()`. -/
def of_derefnullchecked_copy (ops : PtrOps P R) (other : derefnullchecked P) :
    derefnullchecked P × Except nullptr_error (notnull P) :=
  (⟨(of_copy ops other.ptr).1⟩, (of_copy ops other.ptr).2)

/-- The defaulted copy assignment (line 105). -/
def copy_assign (_self other : notnull P) : notnull P := ⟨other.m_ptr⟩

/-- The move assignment (lines 106-110): a swap.  Returns the new `*this` and the new `other`. -/
def move_assign (self other : notnull P) : notnull P × notnull P :=
  (⟨(std_swap self.m_ptr other.m_ptr).1⟩, ⟨(std_swap self.m_ptr other.m_ptr).2⟩)

/-- The assignment `operator=(derefnullchecked<P> const&)` (lines 111-115). -/
def assign_derefnullchecked_copy (ops : PtrOps P R) (self : notnull P)
    (other : derefnullchecked P) : notnull P × Except nullptr_error Unit :=
  if !ops.truthy other.ptr then (self, .error .mk)
  else (⟨other.ptr⟩, .ok ())

/-- The assignment `operator=(derefnullchecked<P>&&)` (lines 116-120).  Returns the new
`*this`, `other` afterwards, and the outcome. -/
def assign_derefnullchecked_move (ops : PtrOps P R) (self : notnull P)
    (other : derefnullchecked P) :
    notnull P × derefnullchecked P × Except nullptr_error Unit :=
  if !ops.truthy other.ptr then (self, other, .error .mk)
  else (⟨other.ptr⟩, ⟨ops.movedFrom other.ptr⟩, .ok ())

/-- The assignment `operator=(P ptr)` (lines 121-126): checks the by-value parameter, then
swaps it in.  Returns the new `*this` and the outcome. -/
def assign (ops : PtrOps P R) (self : notnull P) (ptr : P) :
    notnull P × Except nullptr_error Unit :=
  if !ops.truthy ptr then (self, .error .mk)
  else (⟨(std_swap self.m_ptr ptr).1⟩, .ok ())

/-- The member `swap` (lines 127-130): the new `*this` and the new `other`. -/
def swap (self other : notnull P) : notnull P × notnull P :=
  (⟨(std_swap self.m_ptr other.m_ptr).1⟩, ⟨(std_swap self.m_ptr other.m_ptr).2⟩)

/-- The accessor `as_nullable()` (line 131). -/
def as_nullable (self : notnull P) : P := self.m_ptr

/-- The accessor `ptr()` (line 132). -/
def ptr (self : notnull P) : P := self.m_ptr

/-- The conversion `operator P const&` (line 133). -/
def decay (self : notnull P) : P := self.m_ptr

/-- The conversion `operator bool` (line 134): the constant `true`. -/
def operator_bool (_self : notnull P) : Bool := true

/-- The operator `operator!` (line 135): the constant `false`. -/
def operator_not (_self : notnull P) : Bool := false

/-- The dereference `operator*` (lines 136-137): `*m_ptr`, unchecked. -/
def operator_star (ops : PtrOps P R) (self : notnull P) : R := ops.deref self.m_ptr

/-- The member access `operator->` (lines 138-139): hands out `m_ptr`. -/
def operator_arrow (self : notnull P) : P := self.m_ptr

/-- The member `unsafe_release()` (line 147): returns `std::move(m_ptr)`.  Returns the
released value and `*this` afterwards. -/
def unsafe_release (ops : PtrOps P R) (self : notnull P) : P × notnull P :=
  (self.m_ptr, ⟨ops.movedFrom self.m_ptr⟩)

/-- The member `exchange_inner_ptr(U&& newVal)` (lines 149-159): stores the candidate with
`std::exchange`, and if the stored value is falsy swaps the previous value back and throws. -/
def exchange_inner_ptr (ops : PtrOps P R) (self : notnull P) (newVal : Candidate P) :
    ExchangeOutcome P P :=
  let p := (std_exchange_forward ops self.m_ptr newVal).1
  let m_ptr := (std_exchange_forward ops self.m_ptr newVal).2.1
  let source := (std_exchange_forward ops self.m_ptr newVal).2.2
  if !ops.truthy m_ptr then
    ⟨⟨(std_swap m_ptr p).1⟩, newVal.after (std_swap m_ptr p).1 source, .error .mk⟩
  else
    ⟨⟨m_ptr⟩, newVal.after m_ptr source, .ok p⟩

end notnull

section FreeFunctions

variable {P R : Type}

/-- The free `swap(notnull<P>&, notnull<P>&)` (lines 164-167). -/
def swap (lhs rhs : notnull P) : notnull P × notnull P := notnull.swap lhs rhs

/-- The declaration `notnull<P> nnn(std::forward<U>(newVal))` inside `exchange` (line 171): the
checked constructor for the value category of a separate candidate, and the checked copy
constructor `notnull(P const&)` on the member of `val` when the candidate is that member.
Returns the object `newVal` refers to afterwards and the outcome. -/
def exchange_temporary (ops : PtrOps P R) (val : notnull P) :
    Candidate P → P × Except nullptr_error (notnull P)
  | .object c v => notnull.of_forwarded ops c v
  | .own_member => notnull.of_copy ops val.m_ptr

/-- The free `exchange(notnull<P>& val, U&& newVal)` (lines 169-173): builds a checked
temporary `nnn` from the candidate, releases it as an rvalue into `exchange_inner_ptr`, and
converts the returned `P` to `derefnullchecked<P>`. -/
def exchange (ops : PtrOps P R) (val : notnull P) (newVal : Candidate P) :
    ExchangeOutcome P (derefnullchecked P) :=
  match (exchange_temporary ops val newVal).2 with
  | .error e => ⟨val, newVal.after val.m_ptr (exchange_temporary ops val newVal).1, .error e⟩
  | .ok nnn =>
    let released := (notnull.unsafe_release ops nnn).1
    let inner := notnull.exchange_inner_ptr ops val (.object .rvalue released)
    ⟨inner.wrapper, newVal.after inner.wrapper.m_ptr (exchange_temporary ops val newVal).1,
     match inner.result with
     | .error e => .error e
     | .ok p => .ok (derefnullchecked.of_move ops p).2⟩

/-- The function `throw_if_null(P&&)` (line 263). -/
def throw_if_null (ops : PtrOps P R) (ptr : P) : Except nullptr_error P :=
  if !ops.truthy ptr then .error .mk else .ok ptr

/-- The overloads `throw_if_null(notnull<P> const&)` and `throw_if_null(notnull<P>&&)`
(lines 266 and 269). -/
def throw_if_null_notnull (ptr : notnull P) : notnull P := ptr

end FreeFunctions

/-! ## Spans over a memory of `P` objects -/

/-- A memory of `P` objects, by address (in units of `sizeof(P)`). -/
abbrev Memory (P : Type) := Nat → P

/-- Storing a value at an address. -/
def Memory.write {P : Type} (mem : Memory P) (addr : Nat) (v : P) : Memory P :=
  fun a => if a = addr then v else mem a

/-- The class `std::span<T, E>`: the start address `data()` and the length `size()`; `T` is the
static element type. -/
structure span (T : Type) where
  data : Nat
  size : Nat
  deriving DecidableEq, Repr

section Spans

variable {P R : Type}

/-- The element `s[i]` of a span of `P`. -/
def span.get (mem : Memory P) (s : span P) (i : Nat) : P := mem (s.data + i)

/-- The element `s[i]` of a span of `notnull<P>`: the cell read as a `notnull<P>`. -/
def span.get_notnull (mem : Memory P) (s : span (notnull P)) (i : Nat) : notnull P :=
  ⟨mem (s.data + i)⟩

/-- The element `s[i]` of a span of `derefnullchecked<P>`: the cell read as a
`derefnullchecked<P>`. -/
def span.get_derefnullchecked (mem : Memory P) (s : span (derefnullchecked P)) (i : Nat) :
    derefnullchecked P :=
  ⟨mem (s.data + i)⟩

/-- The statement `s[i] = v` on a span of `notnull<P>`: `notnull::operator=(P)` run on the
object in cell `i`.  Returns the memory afterwards and the outcome. -/
def span.assign_notnull (ops : PtrOps P R) (mem : Memory P) (s : span (notnull P)) (i : Nat)
    (v : P) : Memory P × Except nullptr_error Unit :=
  (mem.write (s.data + i) (notnull.assign ops (s.get_notnull mem i) v).1.m_ptr,
   (notnull.assign ops (s.get_notnull mem i) v).2)

/-- The loop of `std::all_of` over `count` cells starting at `first`. -/
def all_of_loop (mem : Memory P) (pred : P → Bool) : Nat → Nat → Bool
  | _, 0 => true
  | first, count + 1 => if pred (mem first) then all_of_loop mem pred (first + 1) count else false

/-- The call `std::all_of(first, last, pred)` on addresses. -/
def all_of (mem : Memory P) (first last : Nat) (pred : P → Bool) : Bool :=
  all_of_loop mem pred first (last - first)

/-- The function `as_span_of_notnull(std::span<P, E> const&)` (lines 273-282); the predicate
`std::identity` converts each element to `bool`.  Returns the memory afterwards and the
outcome. -/
def as_span_of_notnull (ops : PtrOps P R) (mem : Memory P) (s : span P) :
    Memory P × Except nullptr_error (span (notnull P)) :=
  if all_of mem s.data (s.data + s.size) ops.truthy then
    (mem, .ok ⟨s.data, s.size⟩)
  else
    (mem, .error .mk)

/-- The function `as_span_of_notnull(std::span<P const, E> const&)` (lines 283-292). -/
def as_span_of_notnull_const (ops : PtrOps P R) (mem : Memory P) (s : span P) :
    Memory P × Except nullptr_error (span (notnull P)) :=
  if all_of mem s.data (s.data + s.size) ops.truthy then
    (mem, .ok ⟨s.data, s.size⟩)
  else
    (mem, .error .mk)

/-- The function `as_span_of_notnull(std::span<notnull<P>, E> const&)` (lines 293-297). -/
def as_span_of_notnull_id (s : span (notnull P)) : span (notnull P) := s

/-- The function `as_span_of_derefnullchecked(std::span<P, E> const&)` (lines 299-305).
Returns the memory afterwards and the outcome. -/
def as_span_of_derefnullchecked (mem : Memory P) (s : span P) :
    Memory P × Except nullptr_error (span (derefnullchecked P)) :=
  (mem, .ok ⟨s.data, s.size⟩)

/-- The function `as_span_of_derefnullchecked(std::span<P const, E> const&)` (lines 306-312). -/
def as_span_of_derefnullchecked_const (mem : Memory P) (s : span P) :
    Memory P × Except nullptr_error (span (derefnullchecked P)) :=
  (mem, .ok ⟨s.data, s.size⟩)

/-- The function `as_span_of_derefnullchecked(std::span<derefnullchecked<P>, E> const&)`
(lines 313-317). -/
def as_span_of_derefnullchecked_id (s : span (derefnullchecked P)) :
    span (derefnullchecked P) := s

end Spans

/-! ## Programs over a store of `notnull<P>` objects -/

/-- The live `notnull<P>` objects of a program, by position. -/
abbrev Store (P : Type) := List (notnull P)

/-- The public operations of `notnull<P>` other than `unsafe_release` and the tagged unchecked
constructors; positions name objects of the store. -/
inductive Op (P : Type) where
  | construct (c : ValueCategory) (v : P)
  | construct_in_place (ctor : P → P × P) (args : P)
  | construct_default
  | construct_from_derefnullchecked (c : ValueCategory) (d : derefnullchecked P)
  | copy_construct (i : Nat)
  | move_construct (i : Nat)
  | copy_assign (i j : Nat)
  | move_assign (i j : Nat)
  | assign (i : Nat) (v : P)
  | assign_derefnullchecked (c : ValueCategory) (i : Nat) (d : derefnullchecked P)
  | member_swap (i j : Nat)
  | free_swap (i j : Nat)
  | exchange_inner_ptr (i : Nat) (newVal : Candidate P)
  | exchange (i : Nat) (newVal : Candidate P)

/-- How a statement ended. -/
inductive Effect where
  | returned
  | threw (e : nullptr_error)
  | terminated
  deriving DecidableEq, Repr

section Programs

variable {P R : Type}

/-- The effect of a statement whose outcome is an `Except`. -/
def Effect.of_except {α : Type} : Except nullptr_error α → Effect
  | .ok _ => .returned
  | .error e => .threw e

/-- A declaration `notnull<P> x(...)`: the object joins the store when construction succeeds. -/
def Store.declare (s : Store P) : Except nullptr_error (notnull P) → Store P × Effect
  | .ok n => (s ++ [n], .returned)
  | .error e => (s, .threw e)

/-- One statement; a statement naming a position outside the store is skipped. -/
def step (ops : PtrOps P R) (s : Store P) : Op P → Store P × Effect
  | .construct c v => s.declare (notnull.of_forwarded ops c v).2
  | .construct_in_place ctor args => s.declare (notnull.in_place ops ctor args).2
  | .construct_default =>
    match notnull.default_ctor ops with
    | .constructed n => (s ++ [n], .returned)
    | .threw e => (s, .threw e)
    | .terminated => (s, .terminated)
  | .construct_from_derefnullchecked c d =>
    match c with
    | .lvalue => s.declare (notnull.of_derefnullchecked_copy ops d).2
    | .rvalue => s.declare (notnull.of_derefnullchecked_move ops d).2
  | .copy_construct i =>
    match s[i]? with
    | some other => (s ++ [notnull.copy_ctor other], .returned)
    | none => (s, .returned)
  | .move_construct i =>
    match s[i]? with
    | some other =>
      ((s.set i (notnull.move_ctor ops other).2) ++ [(notnull.move_ctor ops other).1], .returned)
    | none => (s, .returned)
  | .copy_assign i j =>
    match s[i]?, s[j]? with
    | some self, some other => (s.set i (notnull.copy_assign self other), .returned)
    | _, _ => (s, .returned)
  | .move_assign i j =>
    match s[i]?, s[j]? with
    | some self, some other =>
      ((s.set i (notnull.move_assign self other).1).set j (notnull.move_assign self other).2,
       .returned)
    | _, _ => (s, .returned)
  | .assign i v =>
    match s[i]? with
    | some self => (s.set i (notnull.assign ops self v).1, .of_except (notnull.assign ops self v).2)
    | none => (s, .returned)
  | .assign_derefnullchecked c i d =>
    match s[i]? with
    | some self =>
      match c with
      | .lvalue =>
        (s.set i (notnull.assign_derefnullchecked_copy ops self d).1,
         .of_except (notnull.assign_derefnullchecked_copy ops self d).2)
      | .rvalue =>
        (s.set i (notnull.assign_derefnullchecked_move ops self d).1,
         .of_except (notnull.assign_derefnullchecked_move ops self d).2.2)
    | none => (s, .returned)
  | .member_swap i j =>
    match s[i]?, s[j]? with
    | some self, some other =>
      ((s.set i (notnull.swap self other).1).set j (notnull.swap self other).2, .returned)
    | _, _ => (s, .returned)
  | .free_swap i j =>
    match s[i]?, s[j]? with
    | some lhs, some rhs =>
      ((s.set i (swap lhs rhs).1).set j (swap lhs rhs).2, .returned)
    | _, _ => (s, .returned)
  | .exchange_inner_ptr i newVal =>
    match s[i]? with
    | some self =>
      (s.set i (notnull.exchange_inner_ptr ops self newVal).wrapper,
       .of_except (notnull.exchange_inner_ptr ops self newVal).result)
    | none => (s, .returned)
  | .exchange i newVal =>
    match s[i]? with
    | some val =>
      (s.set i (exchange ops val newVal).wrapper, .of_except (exchange ops val newVal).result)
    | none => (s, .returned)

end Programs

/-! ## Instances of `P` used in the examples -/

/-- A raw pointer `int*` into an array of `int`: address `0` is null, and the cell at address
`p` holds `10 * p`. -/
def rawPtr : PtrOps Nat Nat where
  truthy := fun p => p != 0
  deref := fun p => 10 * p
  dflt := 0
  nullp := 0
  movedFrom := fun p => p
  default_is_constexpr := true
  nothrow_default_constructible := true

/-- An owning smart pointer such as `std::unique_ptr<int>`: `none` is the empty pointer, a
moved-from pointer is empty. -/
def ownPtr : PtrOps (Option Nat) Nat where
  truthy := fun p => p.isSome
  deref := fun p => p.getD 0
  dflt := none
  nullp := none
  movedFrom := fun _ => none
  default_is_constexpr := false
  nothrow_default_constructible := true

/-- A shared owning pointer `std::shared_ptr<int>`: `none` is the empty pointer and `some a`
points to the object `a`; a copy is an equal pointer, a moved-from pointer is empty. -/
def sharedPtr : PtrOps (Option Nat) Nat where
  truthy := fun p => p.isSome
  deref := fun p => p.getD 0
  dflt := none
  nullp := none
  movedFrom := fun _ => none
  default_is_constexpr := false
  nothrow_default_constructible := true

/-- A handle type with a validity flag and a payload that a move takes away, such as
`struct handle { bool present; std::vector<int> payload; explicit operator bool() const; }`
with the defaulted move constructor, the payload abstracted to its length. -/
def handle : PtrOps (Bool × Nat) Nat where
  truthy := fun p => p.1
  deref := fun p => p.2
  dflt := (false, 0)
  nullp := (false, 0)
  movedFrom := fun p => (p.1, 0)
  default_is_constexpr := true
  nothrow_default_constructible := true

/-- A token type whose value-initialised state is a compile-time truthy constant and whose
moved-from state is that constant. -/
def token : PtrOps Nat Nat where
  truthy := fun p => p != 7
  deref := fun p => p
  dflt := 0
  nullp := 7
  movedFrom := fun _ => 0
  default_is_constexpr := true
  nothrow_default_constructible := true

/-- The type `int` as `P`, its values taken as integers (no arithmetic is done on them): zero
is falsy; `int` has no `operator*`, and it is not constructible from `std::nullptr_t`, so
`deref` and `nullp` are placeholders that no operation on `notnull<int>` reads. -/
def intOps : PtrOps Int Unit where
  truthy := fun n => n != 0
  deref := fun _ => ()
  dflt := 0
  nullp := 0
  movedFrom := fun n => n
  default_is_constexpr := true
  nothrow_default_constructible := true

/-! ## Free swaps on `derefnullchecked` -/

section DerefSwaps

variable {P : Type}

/-- The free `swap(derefnullchecked<P>&, derefnullchecked<P>&)` (lines 246-250): the new
`lhs` and the new `rhs`. -/
def swap_derefnullchecked (lhs rhs : derefnullchecked P) :
    derefnullchecked P × derefnullchecked P :=
  (⟨(std_swap lhs.ptr rhs.ptr).1⟩, ⟨(std_swap lhs.ptr rhs.ptr).2⟩)

/-- The free `swap(derefnullchecked<P>&, P&)` (lines 251-255): the new `lhs` and the new
`rhs`. -/
def swap_derefnullchecked_P (lhs : derefnullchecked P) (rhs : P) : derefnullchecked P × P :=
  (⟨(std_swap lhs.ptr rhs).1⟩, (std_swap lhs.ptr rhs).2)

/-- The free `swap(P&, derefnullchecked<P>&)` (lines 256-260): the new `lhs` and the new
`rhs`. -/
def swap_P_derefnullchecked (lhs : P) (rhs : derefnullchecked P) : P × derefnullchecked P :=
  ((std_swap lhs rhs.ptr).1, ⟨(std_swap lhs rhs.ptr).2⟩)

end DerefSwaps

/-! ## The operations of one `derefnullchecked<P>` object -/

/-- The public operations of `derefnullchecked<P>` and the free swaps, as statements on one
object; a construction replaces the object by the one constructed. -/
inductive DerefOp (P : Type) where
  | construct_default
  | construct_nullptr
  | construct (c : ValueCategory) (v : P)
  | construct_in_place (ctor : P → P × P) (args : P)
  | construct_from_notnull (n : notnull P)
  | copy_construct (other : derefnullchecked P)
  | move_construct (other : derefnullchecked P)
  | assign_nullptr
  | copy_assign (other : derefnullchecked P)
  | move_assign (other : derefnullchecked P)
  | assign (v : P)
  | member_swap (other : derefnullchecked P)
  | member_swap_P (other : P)
  | free_swap (rhs : derefnullchecked P)
  | free_swap_P (rhs : P)
  | free_swap_P_left (lhs : P)
  | ptr
  | decay
  | operator_bool
  | operator_not
  | operator_star
  | operator_arrow

section DerefPrograms

variable {P R : Type}

/-- One statement on a `derefnullchecked<P>` object: the object afterwards and how the
statement ended.  The const members `ptr()`, the conversions, `operator!`, `operator*` and
`operator->` leave the object as it is. -/
def derefnullchecked.perform (ops : PtrOps P R) (self : derefnullchecked P) :
    DerefOp P → derefnullchecked P × Effect
  | .construct_default => (derefnullchecked.default_ctor ops, .returned)
  | .construct_nullptr => (derefnullchecked.of_nullptr ops, .returned)
  | .construct c v =>
    match c with
    | .lvalue => (derefnullchecked.of_copy v, .returned)
    | .rvalue => ((derefnullchecked.of_move ops v).2, .returned)
  | .construct_in_place ctor args => ((derefnullchecked.in_place ctor args).2, .returned)
  | .construct_from_notnull n => (derefnullchecked.of_notnull n, .returned)
  | .copy_construct other => (derefnullchecked.copy_ctor other, .returned)
  | .move_construct other => ((derefnullchecked.move_ctor ops other).2, .returned)
  | .assign_nullptr => (derefnullchecked.assign_nullptr ops self, .returned)
  | .copy_assign other => (derefnullchecked.copy_assign self other, .returned)
  | .move_assign other => ((derefnullchecked.move_assign ops self other).1, .returned)
  | .assign v => (derefnullchecked.assign self v, .returned)
  | .member_swap other => ((derefnullchecked.swap self other).1, .returned)
  | .member_swap_P other => ((derefnullchecked.swap_P self other).1, .returned)
  | .free_swap rhs => ((swap_derefnullchecked self rhs).1, .returned)
  | .free_swap_P rhs => ((swap_derefnullchecked_P self rhs).1, .returned)
  | .free_swap_P_left lhs => ((swap_P_derefnullchecked lhs self).2, .returned)
  | .ptr => (self, .returned)
  | .decay => (self, .returned)
  | .operator_bool => (self, .returned)
  | .operator_not => (self, .returned)
  | .operator_star => (self, .of_except (derefnullchecked.operator_star ops self))
  | .operator_arrow => (self, .of_except (derefnullchecked.operator_arrow ops self))

end DerefPrograms

/-! ## Reference wrappers and `throw_if_null` on a `notnull` -/

/-- The class `std::reference_wrapper<T>`: it stores the address of the object it refers
to. -/
structure reference_wrapper where
  target : Nat
  deriving DecidableEq, Repr

section ReferenceWrapper

variable {P R : Type}

/-- The call `refw.get()`: the lvalue referred to, designated by the address of its object. -/
def reference_wrapper.get (refw : reference_wrapper) : Nat := refw.target

/-- The built-in `&x` on an lvalue: the address of its object. -/
def address_of (lvalue : Nat) : Nat := lvalue

/-- The constructor `notnull(std::reference_wrapper<T> const&)` (lines 74-77): delegates to the
tagged in-place constructor with the argument `&refw.get()`; `ctor` is the constructor of `P`
from a `T*`. -/
def notnull.of_reference_wrapper (ctor : Nat → P × Nat) (refw : reference_wrapper) :
    notnull P :=
  (notnull.unsafe_in_place ctor (address_of refw.get)).2

/-- The function template `throw_if_null(P&&)` of line 263 with the value category of what it
returns: `decltype(auto)` on `std::forward<P>(ptr)` hands back a reference of the category of
the argument. -/
def throw_if_null_forward (ops : PtrOps P R) (c : ValueCategory) (ptr : P) :
    Except nullptr_error (P × ValueCategory) :=
  if !ops.truthy ptr then .error .mk else .ok (ptr, c)

/-- The function template `throw_if_null(P&&)` of line 263 instantiated at `notnull<P>&`, which
a non-const lvalue `notnull<P>` selects over the `notnull<P> const&` overload: `!ptr` is
`notnull::operator!`. -/
def throw_if_null_at_notnull (ptr : notnull P) : Except nullptr_error (notnull P) :=
  if ptr.operator_not then .error .mk else .ok ptr

end ReferenceWrapper

/-- A raw pointer `T*` whose `operator*` yields the lvalue at the pointed-to address, that
lvalue designated by the address; address `0` is null. -/
def objPtr : PtrOps Nat Nat where
  truthy := fun p => p != 0
  deref := fun p => p
  dflt := 0
  nullp := 0
  movedFrom := fun p => p
  default_is_constexpr := true
  nothrow_default_constructible := true

/-! ## Lemmas on the single operations -/

section OperationLemmas

variable {P R : Type}

theorem std_swap_fst (a b : P) : (std_swap a b).1 = b := rfl

theorem std_swap_snd (a b : P) : (std_swap a b).2 = a := rfl

theorem notnull.of_copy_ok (ops : PtrOps P R) (v : P) (h : ops.truthy v = true) :
    notnull.of_copy ops v = (v, .ok ⟨v⟩) := by
  simp [notnull.of_copy, h]

theorem notnull.of_move_ok (ops : PtrOps P R) (v : P) (h : ops.truthy v = true) :
    notnull.of_move ops v = (ops.movedFrom v, .ok ⟨v⟩) := by
  simp [notnull.of_move, h]

theorem notnull.of_copy_error (ops : PtrOps P R) (v : P) (h : ops.truthy v = false) :
    notnull.of_copy ops v = (v, .error .mk) := by
  simp [notnull.of_copy, h]

theorem notnull.of_move_error (ops : PtrOps P R) (v : P) (h : ops.truthy v = false) :
    notnull.of_move ops v = (v, .error .mk) := by
  simp [notnull.of_move, h]

theorem notnull.in_place_result {A : Type} (ops : PtrOps P R) (ctor : A → P × A) (args : A) :
    (notnull.in_place ops ctor args).2 =
      if ops.truthy (ctor args).1 then .ok ⟨(ctor args).1⟩ else .error .mk := by
  cases h : ops.truthy (ctor args).1 <;> simp [notnull.in_place, h]

theorem notnull.in_place_args {A : Type} (ops : PtrOps P R) (ctor : A → P × A) (args : A) :
    (notnull.in_place ops ctor args).1 = (ctor args).2 := by
  cases h : ops.truthy (ctor args).1 <;> simp [notnull.in_place, h]

theorem notnull.assign_eq (ops : PtrOps P R) (self : notnull P) (v : P) :
    notnull.assign ops self v =
      if ops.truthy v then (⟨v⟩, .ok ()) else (self, .error .mk) := by
  cases h : ops.truthy v <;> simp [notnull.assign, std_swap, h]

theorem notnull.exchange_inner_ptr_object (ops : PtrOps P R) (self : notnull P)
    (c : ValueCategory) (v : P) :
    notnull.exchange_inner_ptr ops self (.object c v) =
      if ops.truthy v then ⟨⟨v⟩, forwarded ops c v, .ok self.m_ptr⟩
      else ⟨self, forwarded ops c v, .error .mk⟩ := by
  cases h : ops.truthy v <;>
    simp [notnull.exchange_inner_ptr, std_exchange_forward, std_exchange, std_swap,
      Candidate.after, h]

theorem notnull.exchange_inner_ptr_own (ops : PtrOps P R) (self : notnull P) :
    notnull.exchange_inner_ptr ops self .own_member =
      if ops.truthy (ops.movedFrom self.m_ptr) then
        ⟨⟨ops.movedFrom self.m_ptr⟩, ops.movedFrom self.m_ptr, .ok self.m_ptr⟩
      else ⟨self, self.m_ptr, .error .mk⟩ := by
  cases h : ops.truthy (ops.movedFrom self.m_ptr) <;>
    simp [notnull.exchange_inner_ptr, std_exchange_forward, std_swap, Candidate.after, h]

theorem notnull.of_forwarded_eq (ops : PtrOps P R) (c : ValueCategory) (v : P) :
    notnull.of_forwarded ops c v =
      if ops.truthy v then (forwarded ops c v, .ok ⟨v⟩) else (v, .error .mk) := by
  cases c <;> cases h : ops.truthy v <;>
    simp [notnull.of_forwarded, notnull.of_copy, notnull.of_move, forwarded, h]

theorem exchange_object (ops : PtrOps P R) (val : notnull P) (c : ValueCategory) (v : P) :
    exchange ops val (.object c v) =
      if ops.truthy v then ⟨⟨v⟩, forwarded ops c v, .ok ⟨val.m_ptr⟩⟩
      else ⟨val, v, .error .mk⟩ := by
  cases h : ops.truthy v <;>
    simp [exchange, exchange_temporary, notnull.of_forwarded_eq,
      notnull.exchange_inner_ptr_object, notnull.unsafe_release, derefnullchecked.of_move,
      Candidate.after, h]

end OperationLemmas

/-! ## The class invariant of `notnull` -/

section Invariant

variable {P R : Type}

end Invariant

/-! ## Construction and assignment from a raw `P` -/

section Construction

variable {P R : Type}

/-- C2. For a truthy `v`, constructing a `notnull<P>` from `v` by copy, by move, or in place
(from a copy of `v`, from `v` moved, or through any constructor of `P` that builds `v`)
succeeds, and the object returns `v` from `ptr()`, `as_nullable()` and the implicit
conversion, hands out `v` from `operator->`, and dereferences to `*v`. -/
theorem notnull_construct_from_truthy (ops : PtrOps P R) (v : P) (h : ops.truthy v = true) :
    (∃ n : notnull P,
      (notnull.of_copy ops v).2 = .ok n ∧
      (notnull.of_move ops v).2 = .ok n ∧
      (notnull.in_place ops P_copy_ctor v).2 = .ok n ∧
      (notnull.in_place ops (P_move_ctor ops) v).2 = .ok n ∧
      (∀ (A : Type) (ctor : A → P × A) (args : A), (ctor args).1 = v →
        (notnull.in_place ops ctor args).2 = .ok n) ∧
      n.ptr = v ∧ n.as_nullable = v ∧ n.decay = v ∧ n.operator_arrow = v ∧
      n.operator_star ops = ops.deref v) := by
  refine ⟨⟨v⟩, ?_, ?_, ?_, ?_, ?_, rfl, rfl, rfl, rfl, rfl⟩
  · rw [notnull.of_copy_ok ops v h]
  · rw [notnull.of_move_ok ops v h]
  · simp [notnull.in_place_result, P_copy_ctor, h]
  · simp [notnull.in_place_result, P_move_ctor, h]
  · intro A ctor args hc
    simp [notnull.in_place_result, hc, h]

/-- C2, at the raw pointer `3`: it is truthy, and the construction clauses hold there. -/
theorem notnull_construct_from_truthy_witness :
    rawPtr.truthy 3 = true ∧
    ∃ n : notnull Nat,
      (notnull.of_copy rawPtr 3).2 = .ok n ∧
      (notnull.of_move rawPtr 3).2 = .ok n ∧
      (notnull.in_place rawPtr P_copy_ctor 3).2 = .ok n ∧
      (notnull.in_place rawPtr (P_move_ctor rawPtr) 3).2 = .ok n ∧
      (∀ (A : Type) (ctor : A → Nat × A) (args : A), (ctor args).1 = 3 →
        (notnull.in_place rawPtr ctor args).2 = .ok n) ∧
      n.ptr = 3 ∧ n.as_nullable = 3 ∧ n.decay = 3 ∧ n.operator_arrow = 3 ∧
      n.operator_star rawPtr = rawPtr.deref 3 :=
  ⟨by decide, notnull_construct_from_truthy rawPtr 3 (by decide)⟩

/-- C3, as stated, fails for in-place construction from an rvalue: the handle `(false, 7)` is
falsy, the construction throws, and the source is left as `(false, 0)`, not as it was. -/
theorem notnull_in_place_moves_before_check :
    handle.truthy (false, 7) = false ∧
    (notnull.in_place handle (P_move_ctor handle) (false, 7)).2 = .error .mk ∧
    (notnull.in_place handle (P_move_ctor handle) (false, 7)).1 = (false, 0) ∧
    (notnull.in_place handle (P_move_ctor handle) (false, 7)).1 ≠ (false, 7) :=
  ⟨rfl, rfl, rfl, by decide⟩

/-- C3, amended. For a falsy `v`, constructing a `notnull<P>` from `v` by copy, by move or in
place throws `nullptr_error` and produces no object.  The copy and the move constructor check
first and leave the source as it was; the in-place constructor builds `m_ptr` first, so its
arguments are left as the selected constructor of `P` leaves them: as they were for a copy,
in the moved-from state for an rvalue. -/
theorem notnull_construct_from_falsy (ops : PtrOps P R) (v : P) (h : ops.truthy v = false) :
    notnull.of_copy ops v = (v, .error .mk) ∧
    notnull.of_move ops v = (v, .error .mk) ∧
    notnull.in_place ops P_copy_ctor v = (v, .error .mk) ∧
    notnull.in_place ops (P_move_ctor ops) v = (ops.movedFrom v, .error .mk) ∧
    (∀ (A : Type) (ctor : A → P × A) (args : A), (ctor args).1 = v →
      notnull.in_place ops ctor args = ((ctor args).2, .error .mk)) := by
  refine ⟨notnull.of_copy_error ops v h, notnull.of_move_error ops v h, ?_, ?_, ?_⟩
  · simp [notnull.in_place, P_copy_ctor, h]
  · simp [notnull.in_place, P_move_ctor, h]
  · intro A ctor args hc
    simp [notnull.in_place, hc, h]

/-- C3, amended, at the null raw pointer `0`. -/
theorem notnull_construct_from_falsy_witness :
    rawPtr.truthy 0 = false ∧
    notnull.of_copy rawPtr 0 = (0, .error .mk) ∧
    notnull.of_move rawPtr 0 = (0, .error .mk) ∧
    notnull.in_place rawPtr P_copy_ctor 0 = (0, .error .mk) ∧
    notnull.in_place rawPtr (P_move_ctor rawPtr) 0 = (rawPtr.movedFrom 0, .error .mk) ∧
    (∀ (A : Type) (ctor : A → Nat × A) (args : A), (ctor args).1 = 0 →
      notnull.in_place rawPtr ctor args = ((ctor args).2, .error .mk)) :=
  ⟨by decide, notnull_construct_from_falsy rawPtr 0 (by decide)⟩

/-- C4. Assigning a raw `P` to a `notnull<P>` holding `w` throws `nullptr_error` exactly when
the value is falsy; when it throws the object still holds `w`, and otherwise it returns and
the object holds the assigned value. -/
theorem notnull_assign_strong_guarantee (ops : PtrOps P R) (w v : P) :
    ((notnull.assign ops ⟨w⟩ v).2 = .error .mk ↔ ops.truthy v = false) ∧
    ((notnull.assign ops ⟨w⟩ v).2 = .ok () ↔ ops.truthy v = true) ∧
    (notnull.assign ops ⟨w⟩ v).1.ptr = (if ops.truthy v then v else w) := by
  rw [notnull.assign_eq]
  cases h : ops.truthy v <;> simp [notnull.ptr]

end Construction

/-! ## Deferred checking in `derefnullchecked` -/

section Deferred

variable {P R : Type}

/-- C5. Every constructor of `derefnullchecked<P>` stores what it is given without a check:
a copied or moved `v`, an in-place built value, `P()` for default construction and
`P(nullptr)` for the null sentinel.  `operator*` and `operator->` throw `nullptr_error`
exactly when the stored value is falsy, and otherwise yield `*m_ptr` and `m_ptr`. -/
theorem derefnullchecked_deferred_check (ops : PtrOps P R) (v : P) :
    (derefnullchecked.of_copy v).ptr = v ∧
    (derefnullchecked.of_move ops v).2.ptr = v ∧
    (derefnullchecked.in_place P_copy_ctor v).2.ptr = v ∧
    (derefnullchecked.in_place (P_move_ctor ops) v).2.ptr = v ∧
    (derefnullchecked.default_ctor ops).ptr = ops.dflt ∧
    (derefnullchecked.of_nullptr ops).ptr = ops.nullp ∧
    ((derefnullchecked.operator_star ops ⟨v⟩ = .error .mk ↔ ops.truthy v = false) ∧
     (derefnullchecked.operator_arrow ops ⟨v⟩ = .error .mk ↔ ops.truthy v = false) ∧
     derefnullchecked.operator_star ops ⟨v⟩ =
       (if ops.truthy v then .ok (ops.deref v) else .error .mk) ∧
     derefnullchecked.operator_arrow ops ⟨v⟩ =
       (if ops.truthy v then .ok v else .error .mk)) := by
  refine ⟨rfl, rfl, rfl, rfl, rfl, rfl, ?_⟩
  cases h : ops.truthy v <;>
    simp [derefnullchecked.operator_star, derefnullchecked.operator_arrow,
      derefnullchecked.operator_bool, h]

/-- C6. Converting a `notnull<P>` that holds a truthy value to `derefnullchecked<P>` and
constructing a `notnull<P>` from the result, by copy or by move, does not throw and yields a
`notnull` whose `ptr()` is the original value. -/
theorem notnull_round_trip (ops : PtrOps P R) (n : notnull P) (h : ops.truthy n.ptr = true) :
    ∃ m : notnull P,
      (notnull.of_derefnullchecked_copy ops (derefnullchecked.of_notnull n)).2 = .ok m ∧
      (notnull.of_derefnullchecked_move ops (derefnullchecked.of_notnull n)).2 = .ok m ∧
      m.ptr = n.ptr := by
  refine ⟨⟨n.ptr⟩, ?_, ?_, rfl⟩
  · simp [notnull.of_derefnullchecked_copy, derefnullchecked.of_notnull, derefnullchecked.ptr,
      notnull.of_copy_ok ops n.m_ptr h, notnull.ptr]
  · simp [notnull.of_derefnullchecked_move, derefnullchecked.of_notnull, derefnullchecked.ptr,
      notnull.of_move_ok ops n.m_ptr h, notnull.ptr]

/-- C6, at an owning pointer to `5`. -/
theorem notnull_round_trip_witness :
    ownPtr.truthy (notnull.mk (some 5)).ptr = true ∧
    ∃ m : notnull (Option Nat),
      (notnull.of_derefnullchecked_copy ownPtr
        (derefnullchecked.of_notnull (notnull.mk (some 5)))).2 = .ok m ∧
      (notnull.of_derefnullchecked_move ownPtr
        (derefnullchecked.of_notnull (notnull.mk (some 5)))).2 = .ok m ∧
      m.ptr = (notnull.mk (some 5)).ptr :=
  ⟨by decide, notnull_round_trip ownPtr (notnull.mk (some 5)) (by decide)⟩

end Deferred

/-! ## Span reinterpretation -/

section SpanTheorems

variable {P R : Type}

theorem all_of_loop_eq_true (mem : Memory P) (pred : P → Bool) (count : Nat) :
    ∀ first : Nat,
      all_of_loop mem pred first count = true ↔ ∀ i, i < count → pred (mem (first + i)) = true := by
  induction count with
  | zero =>
    intro first
    simp [all_of_loop]
  | succ k ih =>
    intro first
    simp only [all_of_loop]
    constructor
    · intro h i hi
      cases hp : pred (mem first) with
      | false => simp [hp] at h
      | true =>
        simp only [hp, if_true] at h
        cases i with
        | zero => simpa using hp
        | succ j =>
          have hj := (ih (first + 1)).mp h j (by omega)
          have e : first + (j + 1) = first + 1 + j := by omega
          rw [e]
          exact hj
    · intro h
      have h0 : pred (mem first) = true := by simpa using h 0 (by omega)
      simp only [h0, if_true]
      refine (ih (first + 1)).mpr ?_
      intro i hi
      have e : first + 1 + i = first + (i + 1) := by omega
      rw [e]
      exact h (i + 1) (by omega)

theorem all_of_span_eq_true (ops : PtrOps P R) (mem : Memory P) (s : span P) :
    all_of mem s.data (s.data + s.size) ops.truthy = true ↔
      ∀ i, i < s.size → ops.truthy (s.get mem i) = true := by
  unfold all_of
  rw [Nat.add_sub_cancel_left, all_of_loop_eq_true]
  rfl

theorem all_of_span_eq_false (ops : PtrOps P R) (mem : Memory P) (s : span P) :
    all_of mem s.data (s.data + s.size) ops.truthy = false ↔
      ∃ i, i < s.size ∧ ops.truthy (s.get mem i) = false := by
  rw [← Bool.not_eq_true, all_of_span_eq_true]
  simp

/-- C7. For every span `s` of `P`, mutable or const, `as_span_of_notnull(s)` throws
`nullptr_error` exactly when some element of `s` is falsy, so it returns on the empty span;
and whether it throws or returns, the memory, hence every element of `s`, is as before. -/
theorem as_span_of_notnull_throws_iff (ops : PtrOps P R) (mem : Memory P) (s : span P) :
    ((as_span_of_notnull ops mem s).2 = .error .mk ↔
      ∃ i, i < s.size ∧ ops.truthy (s.get mem i) = false) ∧
    ((as_span_of_notnull_const ops mem s).2 = .error .mk ↔
      ∃ i, i < s.size ∧ ops.truthy (s.get mem i) = false) ∧
    (as_span_of_notnull ops mem ⟨s.data, 0⟩).2 = .ok ⟨s.data, 0⟩ ∧
    (as_span_of_notnull_const ops mem ⟨s.data, 0⟩).2 = .ok ⟨s.data, 0⟩ ∧
    (as_span_of_notnull ops mem s).1 = mem ∧
    (as_span_of_notnull_const ops mem s).1 = mem ∧
    (∀ i, s.get (as_span_of_notnull ops mem s).1 i = s.get mem i) ∧
    (∀ i, s.get (as_span_of_notnull_const ops mem s).1 i = s.get mem i) := by
  have hmem : (as_span_of_notnull ops mem s).1 = mem := by
    unfold as_span_of_notnull
    split <;> rfl
  have hmemc : (as_span_of_notnull_const ops mem s).1 = mem := by
    unfold as_span_of_notnull_const
    split <;> rfl
  refine ⟨?_, ?_, ?_, ?_, hmem, hmemc, ?_, ?_⟩
  · rw [← all_of_span_eq_false ops mem s]
    unfold as_span_of_notnull
    cases all_of mem s.data (s.data + s.size) ops.truthy <;> simp
  · rw [← all_of_span_eq_false ops mem s]
    unfold as_span_of_notnull_const
    cases all_of mem s.data (s.data + s.size) ops.truthy <;> simp
  · simp [as_span_of_notnull, all_of, all_of_loop]
  · simp [as_span_of_notnull_const, all_of, all_of_loop]
  · intro i
    rw [hmem]
  · intro i
    rw [hmemc]

/-- C8. For a span `s` of `P` without a falsy element, `as_span_of_notnull(s)` returns a span
with the start address and the length of `s` over the unchanged memory; for every index `i`
its element `i` holds `s[i]`, and assigning a truthy `v` to its element `i` returns, after
which `s[i]` reads `v` and the other elements of `s` are as before. -/
theorem as_span_of_notnull_aliases (ops : PtrOps P R) (mem : Memory P) (s : span P)
    (h : ∀ i, i < s.size → ops.truthy (s.get mem i) = true) :
    ∃ r : span (notnull P),
      as_span_of_notnull ops mem s = (mem, .ok r) ∧
      as_span_of_notnull_const ops mem s = (mem, .ok r) ∧
      r.data = s.data ∧ r.size = s.size ∧
      (∀ i, i < s.size → (r.get_notnull mem i).ptr = s.get mem i) ∧
      (∀ i v, i < s.size → ops.truthy v = true →
        (r.assign_notnull ops mem i v).2 = .ok () ∧
        s.get (r.assign_notnull ops mem i v).1 i = v ∧
        (r.get_notnull (r.assign_notnull ops mem i v).1 i).ptr = v ∧
        ∀ j, j ≠ i → s.get (r.assign_notnull ops mem i v).1 j = s.get mem j) := by
  have hall := (all_of_span_eq_true ops mem s).mpr h
  refine ⟨⟨s.data, s.size⟩, ?_, ?_, rfl, rfl, ?_, ?_⟩
  · simp [as_span_of_notnull, hall]
  · simp [as_span_of_notnull_const, hall]
  · intro i _
    rfl
  · intro i v _ hv
    refine ⟨?_, ?_, ?_, ?_⟩
    · simp [span.assign_notnull, notnull.assign_eq, hv]
    · simp [span.assign_notnull, notnull.assign_eq, hv, span.get, Memory.write]
    · simp [span.assign_notnull, notnull.assign_eq, hv, span.get_notnull, Memory.write,
        notnull.ptr]
    · intro j hj
      simp [span.assign_notnull, span.get, Memory.write, hj]

/-- C8, at three non-null raw pointers stored from address `0`. -/
theorem as_span_of_notnull_aliases_witness :
    (∀ i, i < (span.mk 0 3 : span Nat).size →
      rawPtr.truthy ((span.mk 0 3 : span Nat).get (fun a => a + 1) i) = true) ∧
    ∃ r : span (notnull Nat),
      as_span_of_notnull rawPtr (fun a => a + 1) (span.mk 0 3) = ((fun a => a + 1), .ok r) ∧
      as_span_of_notnull_const rawPtr (fun a => a + 1) (span.mk 0 3) =
        ((fun a => a + 1), .ok r) ∧
      r.data = (span.mk 0 3 : span Nat).data ∧ r.size = (span.mk 0 3 : span Nat).size ∧
      (∀ i, i < (span.mk 0 3 : span Nat).size →
        (r.get_notnull (fun a => a + 1) i).ptr = (span.mk 0 3 : span Nat).get (fun a => a + 1) i) ∧
      (∀ i v, i < (span.mk 0 3 : span Nat).size → rawPtr.truthy v = true →
        (r.assign_notnull rawPtr (fun a => a + 1) i v).2 = .ok () ∧
        (span.mk 0 3 : span Nat).get (r.assign_notnull rawPtr (fun a => a + 1) i v).1 i = v ∧
        (r.get_notnull (r.assign_notnull rawPtr (fun a => a + 1) i v).1 i).ptr = v ∧
        ∀ j, j ≠ i → (span.mk 0 3 : span Nat).get (r.assign_notnull rawPtr (fun a => a + 1) i v).1 j
          = (span.mk 0 3 : span Nat).get (fun a => a + 1) j) :=
  ⟨by intro i _; simp [rawPtr, span.get],
   as_span_of_notnull_aliases rawPtr (fun a => a + 1) (span.mk 0 3)
     (by intro i _; simp [rawPtr, span.get])⟩

/-- C9. For every span `s` of `P`, mutable or const, `as_span_of_derefnullchecked(s)` returns
without touching the memory a span with the start address and the length of `s`; its element
`i` holds `s[i]`, and dereferencing it throws `nullptr_error` exactly when `s[i]` is falsy and
otherwise yields `*s[i]`. -/
theorem as_span_of_derefnullchecked_total (ops : PtrOps P R) (mem : Memory P) (s : span P) :
    ∃ r : span (derefnullchecked P),
      as_span_of_derefnullchecked mem s = (mem, .ok r) ∧
      as_span_of_derefnullchecked_const mem s = (mem, .ok r) ∧
      r.data = s.data ∧ r.size = s.size ∧
      ∀ i, (r.get_derefnullchecked mem i).ptr = s.get mem i ∧
        ((r.get_derefnullchecked mem i).operator_star ops = .error .mk ↔
          ops.truthy (s.get mem i) = false) ∧
        (r.get_derefnullchecked mem i).operator_star ops =
          (if ops.truthy (s.get mem i) then .ok (ops.deref (s.get mem i)) else .error .mk) := by
  refine ⟨⟨s.data, s.size⟩, rfl, rfl, rfl, rfl, ?_⟩
  intro i
  refine ⟨rfl, ?_, ?_⟩ <;>
    cases h : ops.truthy (mem (s.data + i)) <;>
    simp [span.get_derefnullchecked, span.get, derefnullchecked.operator_star,
      derefnullchecked.operator_bool, h]

end SpanTheorems

/-! ## Exchange -/

section ExchangeTheorems

variable {P R : Type}

/-- With a truthy candidate that is an object other than the member of `n`, passed as an lvalue
or as an rvalue, `exchange` and `exchange_inner_ptr` both return the previous value `w` and
leave `n` holding the candidate. -/
theorem exchange_truthy_object (ops : PtrOps P R) (c : ValueCategory) (w v : P)
    (hv : ops.truthy v = true) :
    (exchange ops ⟨w⟩ (.object c v)).result = .ok ⟨w⟩ ∧
    (exchange ops ⟨w⟩ (.object c v)).wrapper.ptr = v ∧
    (notnull.exchange_inner_ptr ops ⟨w⟩ (.object c v)).result = .ok w ∧
    (notnull.exchange_inner_ptr ops ⟨w⟩ (.object c v)).wrapper.ptr = v := by
  rw [exchange_object, notnull.exchange_inner_ptr_object]
  simp [hv, notnull.ptr]

/-- With the member of `n` itself as the candidate, `exchange_inner_ptr` returns exactly when
the moved-from state of `P` is truthy and then leaves `n` in that state; otherwise it throws
and leaves `n` as it was.  For a raw pointer, whose moved-from state is the pointer itself, it
returns. -/
theorem exchange_inner_ptr_own_member (ops : PtrOps P R) (w : P) :
    ((notnull.exchange_inner_ptr ops ⟨w⟩ .own_member).result = .error .mk ↔
      ops.truthy (ops.movedFrom w) = false) ∧
    (notnull.exchange_inner_ptr ops ⟨w⟩ .own_member).wrapper.ptr =
      (if ops.truthy (ops.movedFrom w) then ops.movedFrom w else w) ∧
    (notnull.exchange_inner_ptr rawPtr ⟨3⟩ .own_member).result = .ok 3 := by
  rw [notnull.exchange_inner_ptr_own]
  refine ⟨?_, ?_, rfl⟩ <;> cases h : ops.truthy (ops.movedFrom w) <;> simp [notnull.ptr]

/-- C10, at `P = std::shared_ptr<int>` and the call `n.exchange_inner_ptr(n.ptr())` on an `n`
holding a pointer to `4`.  The candidate is the member of `n` and is truthy; `std::exchange`
moves from the member and then assigns the emptied member to itself, the member is found
falsy, and the call swaps the pointer back and throws `nullptr_error`.  The free
`exchange(n, n.ptr())` copies the candidate into its temporary first and returns the previous
value. -/
theorem exchange_inner_ptr_own_member_throws :
    sharedPtr.truthy (Candidate.value (some 4) (Candidate.own_member : Candidate (Option Nat)))
      = true ∧
    std_exchange_forward sharedPtr (some 4) .own_member = (some 4, none, none) ∧
    (notnull.exchange_inner_ptr sharedPtr ⟨some 4⟩ .own_member).result = .error .mk ∧
    (notnull.exchange_inner_ptr sharedPtr ⟨some 4⟩ .own_member).wrapper = ⟨some 4⟩ ∧
    (exchange sharedPtr ⟨some 4⟩ .own_member).result = .ok ⟨some 4⟩ ∧
    (exchange sharedPtr ⟨some 4⟩ .own_member).wrapper = ⟨some 4⟩ :=
  ⟨rfl, rfl, rfl, rfl, rfl, rfl⟩

end ExchangeTheorems

section ExchangeFailure

variable {P R : Type}

/-- C11. For a `notnull<P>` holding `w` and a falsy candidate `v`, passed as an lvalue or as an
rvalue, `exchange(n, v)` and `n.exchange_inner_ptr(v)` both throw `nullptr_error` and leave `n`
holding `w`: inside `exchange_inner_ptr` the candidate is stored by `std::exchange` and the
swap with the saved previous value puts `w` back.  (The member of an `n` that holds a truthy
value is not a falsy candidate.) -/
theorem exchange_falsy_candidate (ops : PtrOps P R) (c : ValueCategory) (w v : P)
    (hv : ops.truthy v = false) :
    (exchange ops ⟨w⟩ (.object c v)).result = .error .mk ∧
    (exchange ops ⟨w⟩ (.object c v)).wrapper.ptr = w ∧
    (notnull.exchange_inner_ptr ops ⟨w⟩ (.object c v)).result = .error .mk ∧
    (notnull.exchange_inner_ptr ops ⟨w⟩ (.object c v)).wrapper.ptr = w ∧
    (std_exchange w v).2 = v ∧
    (std_swap (std_exchange w v).2 (std_exchange w v).1).1 = w := by
  rw [exchange_object, notnull.exchange_inner_ptr_object]
  simp [hv, notnull.ptr, std_exchange, std_swap]

/-- C11, at owning pointers: `n` holds a pointer to `4`, the candidate is empty. -/
theorem exchange_falsy_candidate_witness :
    ownPtr.truthy none = false ∧
    (exchange ownPtr ⟨some 4⟩ (.object .rvalue none)).result = .error .mk ∧
    (exchange ownPtr ⟨some 4⟩ (.object .rvalue none)).wrapper.ptr = some 4 ∧
    (notnull.exchange_inner_ptr ownPtr ⟨some 4⟩ (.object .rvalue none)).result = .error .mk ∧
    (notnull.exchange_inner_ptr ownPtr ⟨some 4⟩ (.object .rvalue none)).wrapper.ptr = some 4 ∧
    (std_exchange (some 4) (none : Option Nat)).2 = none ∧
    (std_swap (std_exchange (some 4) (none : Option Nat)).2
      (std_exchange (some 4) (none : Option Nat)).1).1 = some 4 :=
  ⟨by decide, exchange_falsy_candidate ownPtr .rvalue (some 4) none (by decide)⟩

end ExchangeFailure

/-! ## `notnull` from `derefnullchecked` -/

section FromDerefnullchecked

variable {P R : Type}

/-- C12. Constructing a `notnull<P>` from a `derefnullchecked<P>` `d`, or assigning `d` to a
`notnull<P>` holding `w`, by copy or by move, throws `nullptr_error` exactly when the value of
`d` is falsy.  On success the `notnull` holds the value of `d`; on a failed assignment the
target still holds `w`, and on every failure `d` is as it was. -/
theorem notnull_from_derefnullchecked (ops : PtrOps P R) (w : P) (d : derefnullchecked P) :
    ((notnull.of_derefnullchecked_copy ops d).2 = .error .mk ↔ ops.truthy d.ptr = false) ∧
    ((notnull.of_derefnullchecked_move ops d).2 = .error .mk ↔ ops.truthy d.ptr = false) ∧
    ((notnull.assign_derefnullchecked_copy ops ⟨w⟩ d).2 = .error .mk ↔
      ops.truthy d.ptr = false) ∧
    ((notnull.assign_derefnullchecked_move ops ⟨w⟩ d).2.2 = .error .mk ↔
      ops.truthy d.ptr = false) ∧
    notnull.of_derefnullchecked_copy ops d =
      (if ops.truthy d.ptr then (d, .ok ⟨d.ptr⟩) else (d, .error .mk)) ∧
    notnull.of_derefnullchecked_move ops d =
      (if ops.truthy d.ptr then (⟨ops.movedFrom d.ptr⟩, .ok ⟨d.ptr⟩) else (d, .error .mk)) ∧
    notnull.assign_derefnullchecked_copy ops ⟨w⟩ d =
      (if ops.truthy d.ptr then (⟨d.ptr⟩, .ok ()) else (⟨w⟩, .error .mk)) ∧
    notnull.assign_derefnullchecked_move ops ⟨w⟩ d =
      (if ops.truthy d.ptr then (⟨d.ptr⟩, ⟨ops.movedFrom d.ptr⟩, .ok ())
       else (⟨w⟩, d, .error .mk)) := by
  cases d with
  | mk x =>
    cases h : ops.truthy x <;>
      simp [notnull.of_derefnullchecked_copy, notnull.of_derefnullchecked_move,
        notnull.assign_derefnullchecked_copy, notnull.assign_derefnullchecked_move,
        notnull.of_copy, notnull.of_move, derefnullchecked.ptr, h]

end FromDerefnullchecked

/-! ## Move construction, release and default construction of `notnull` -/

section MoveRelease

variable {P R : Type}

/-- C13. Move construction `notnull b(std::move(a))` from an `a` holding a truthy `w` gives a
`b` holding `w` and leaves `a` holding a truthy value: `w` itself when `P()` is not a
compile-time truthy constant (the move is a copy), and `P()` when it is. -/
theorem notnull_move_ctor_keeps_source_valid (ops : PtrOps P R) (w : P)
    (hw : ops.truthy w = true) :
    (notnull.move_ctor ops ⟨w⟩).1.ptr = w ∧
    ops.truthy (notnull.move_ctor ops ⟨w⟩).2.ptr = true ∧
    (notnull.move_ctor ops ⟨w⟩).2.ptr =
      (if notnull.has_static_truthy_default ops then ops.dflt else w) := by
  unfold notnull.move_ctor
  cases hd : notnull.has_static_truthy_default ops
  · simp [notnull.copy_ctor, notnull.ptr, hw]
  · have hd2 : ops.truthy ops.dflt = true := by
      simp [notnull.has_static_truthy_default] at hd
      exact hd.2
    simp [std_swap, notnull.ptr, hd2]

/-- C13, at a token type whose `P()` is the compile-time truthy constant `0`: the source is
left holding `0`. -/
theorem notnull_move_ctor_keeps_source_valid_witness :
    token.truthy 3 = true ∧
    (notnull.move_ctor token ⟨3⟩).1.ptr = 3 ∧
    token.truthy (notnull.move_ctor token ⟨3⟩).2.ptr = true ∧
    (notnull.move_ctor token ⟨3⟩).2.ptr =
      (if notnull.has_static_truthy_default token then token.dflt else 3) :=
  ⟨by decide, notnull_move_ctor_keeps_source_valid token 3 (by decide)⟩

/-- C14. On a `notnull<P>` holding `w`, `unsafe_release()` returns `w`; and in whatever state
`n` is afterwards (the state the release left, or any other, falsy ones included), the
assignment `n = v` of a truthy `v` returns, after which `n` holds `v`, `ptr()` is truthy and
`*n` is `*v`. -/
theorem notnull_unsafe_release_then_assign (ops : PtrOps P R) (w v : P)
    (hv : ops.truthy v = true) :
    (notnull.unsafe_release ops ⟨w⟩).1 = w ∧
    (notnull.unsafe_release ops ⟨w⟩).2.ptr = ops.movedFrom w ∧
    (notnull.assign ops (notnull.unsafe_release ops ⟨w⟩).2 v).2 = .ok () ∧
    (notnull.assign ops (notnull.unsafe_release ops ⟨w⟩).2 v).1.ptr = v ∧
    (∀ n : notnull P,
      (notnull.assign ops n v).2 = .ok () ∧
      (notnull.assign ops n v).1.ptr = v ∧
      ops.truthy (notnull.assign ops n v).1.ptr = true ∧
      (notnull.assign ops n v).1.operator_star ops = ops.deref v) := by
  refine ⟨rfl, rfl, ?_, ?_, ?_⟩
  · simp [notnull.assign_eq, hv]
  · simp [notnull.assign_eq, hv, notnull.ptr]
  · intro n
    simp [notnull.assign_eq, hv, notnull.ptr, notnull.operator_star]

/-- C14, at owning pointers: the release of a pointer to `4` leaves `n` empty, and assigning a
pointer to `7` repairs it. -/
theorem notnull_unsafe_release_then_assign_witness :
    ownPtr.truthy (some 7) = true ∧
    (notnull.unsafe_release ownPtr ⟨some 4⟩).1 = some 4 ∧
    (notnull.unsafe_release ownPtr ⟨some 4⟩).2.ptr = ownPtr.movedFrom (some 4) ∧
    (notnull.assign ownPtr (notnull.unsafe_release ownPtr ⟨some 4⟩).2 (some 7)).2 = .ok () ∧
    (notnull.assign ownPtr (notnull.unsafe_release ownPtr ⟨some 4⟩).2 (some 7)).1.ptr = some 7 ∧
    (∀ n : notnull (Option Nat),
      (notnull.assign ownPtr n (some 7)).2 = .ok () ∧
      (notnull.assign ownPtr n (some 7)).1.ptr = some 7 ∧
      ownPtr.truthy (notnull.assign ownPtr n (some 7)).1.ptr = true ∧
      (notnull.assign ownPtr n (some 7)).1.operator_star ownPtr = ownPtr.deref (some 7)) :=
  ⟨by decide, notnull_unsafe_release_then_assign ownPtr (some 4) (some 7) (by decide)⟩

/-- C15, at `P = int*`: `P()` is the null pointer and `int*` is nothrow default constructible,
so the constructor `notnull()` is `noexcept(true)` and its `throw nullptr_error()` ends in
`std::terminate`; no exception reaches the caller. -/
theorem notnull_default_ctor_terminates :
    rawPtr.truthy rawPtr.dflt = false ∧
    rawPtr.nothrow_default_constructible = true ∧
    notnull.default_ctor rawPtr = CtorOutcome.terminated ∧
    notnull.default_ctor rawPtr ≠ CtorOutcome.threw nullptr_error.mk := by
  decide

/-- The three outcomes of the default constructor of `notnull<P>`: an object holding `P()` when
`P()` is truthy; otherwise `std::terminate` when `P` is nothrow default constructible, and a
`nullptr_error` at the caller when it is not. -/
theorem notnull.default_ctor_eq (ops : PtrOps P R) :
    notnull.default_ctor ops =
      (if ops.truthy ops.dflt then CtorOutcome.constructed ⟨ops.dflt⟩
       else if ops.nothrow_default_constructible then CtorOutcome.terminated
       else CtorOutcome.threw nullptr_error.mk) := by
  cases h : ops.truthy ops.dflt <;> cases h2 : ops.nothrow_default_constructible <;>
    simp [notnull.default_ctor, h, h2]

/-- C16. For `P = int`, constructing `notnull<int>(n)`, from an rvalue or an lvalue, throws
`nullptr_error` when `n` is `0` and otherwise succeeds holding `n`, negative values included;
assigning `0` to a `notnull<int>` holding `w` throws and leaves it holding `w`. -/
theorem notnull_int_truthy_iff_nonzero (n w : Int) :
    (intOps.truthy n = true ↔ n ≠ 0) ∧
    (notnull.of_move intOps n).2 = (if n = 0 then .error .mk else .ok ⟨n⟩) ∧
    (notnull.of_copy intOps n).2 = (if n = 0 then .error .mk else .ok ⟨n⟩) ∧
    (notnull.of_move intOps (-4)).2 = .ok ⟨-4⟩ ∧
    (notnull.of_move intOps 0).2 = .error .mk ∧
    notnull.assign intOps ⟨w⟩ 0 = (⟨w⟩, .error .mk) := by
  have ht : intOps.truthy n = true ↔ n ≠ 0 := by
    simp [intOps]
  refine ⟨ht, ?_, ?_, rfl, rfl, rfl⟩
  · by_cases h : n = 0
    · subst h
      rfl
    · have h1 : intOps.truthy n = true := ht.mpr h
      simp [notnull.of_move, h1, h]
  · by_cases h : n = 0
    · subst h
      rfl
    · have h1 : intOps.truthy n = true := ht.mpr h
      simp [notnull.of_copy, h1, h]

end MoveRelease

/-! ## `derefnullchecked` outside dereference -/

section DerefTotal

variable {P R : Type}

/-- C17. On a `derefnullchecked<P>` in any state and with any argument, a statement throws
`nullptr_error` only if it is `operator*` or `operator->`, and those two throw exactly on a
falsy stored value; construction, copy and move, the assignments, the swaps, `ptr()`, the
conversion to `P`, `operator bool` and `operator!` always return, and nothing terminates. -/
theorem derefnullchecked_only_dereference_throws (ops : PtrOps P R)
    (self : derefnullchecked P) (op : DerefOp P) :
    ((∃ e, (derefnullchecked.perform ops self op).2 = .threw e) ↔
      ((op = .operator_star ∨ op = .operator_arrow) ∧ ops.truthy self.ptr = false)) ∧
    ((derefnullchecked.perform ops self op).2 = .returned ↔
      ¬ ((op = .operator_star ∨ op = .operator_arrow) ∧ ops.truthy self.ptr = false)) ∧
    (derefnullchecked.perform ops self op).2 ≠ .terminated := by
  cases op with
  | construct c v => cases c <;> simp [derefnullchecked.perform]
  | operator_star =>
    cases h : ops.truthy self.m_ptr
    · simp [derefnullchecked.perform, derefnullchecked.operator_star,
        derefnullchecked.operator_bool, derefnullchecked.ptr, Effect.of_except, h]
      exact ⟨.mk, trivial⟩
    · simp [derefnullchecked.perform, derefnullchecked.operator_star,
        derefnullchecked.operator_bool, derefnullchecked.ptr, Effect.of_except, h]
  | operator_arrow =>
    cases h : ops.truthy self.m_ptr
    · simp [derefnullchecked.perform, derefnullchecked.operator_arrow,
        derefnullchecked.operator_bool, derefnullchecked.ptr, Effect.of_except, h]
      exact ⟨.mk, trivial⟩
    · simp [derefnullchecked.perform, derefnullchecked.operator_arrow,
        derefnullchecked.operator_bool, derefnullchecked.ptr, Effect.of_except, h]
  | _ => simp [derefnullchecked.perform]

/-- C18. The check of `operator*` reads the current value: after `d = v`, from a `P` or
from another `derefnullchecked<P>` holding `v`, whatever `d` held before, `d.ptr()` is `v`,
`operator bool` is the truthiness of `v`, and `*d` throws `nullptr_error` exactly when `v` is
falsy and otherwise yields `*v`.  With a falsy null sentinel, `d = nullptr` makes the next
dereference throw, and assigning a truthy value to a null `d` makes it succeed. -/
theorem derefnullchecked_check_not_cached (ops : PtrOps P R) (d : derefnullchecked P) (v : P)
    (hnull : ops.truthy ops.nullp = false) :
    (d.assign v).ptr = v ∧
    (d.copy_assign ⟨v⟩).ptr = v ∧
    (d.move_assign ops ⟨v⟩).1.ptr = v ∧
    (d.assign v).operator_bool ops = ops.truthy v ∧
    ((d.assign v).operator_star ops = .error .mk ↔ ops.truthy v = false) ∧
    (d.assign v).operator_star ops =
      (if ops.truthy v then .ok (ops.deref v) else .error .mk) ∧
    (d.assign_nullptr ops).ptr = ops.nullp ∧
    (d.assign_nullptr ops).operator_star ops = .error .mk ∧
    ((derefnullchecked.of_nullptr ops).assign v).operator_star ops =
      (if ops.truthy v then .ok (ops.deref v) else .error .mk) := by
  have hstar : ∀ x : P, derefnullchecked.operator_star ops ⟨x⟩ =
      (if ops.truthy x then .ok (ops.deref x) else .error .mk) := by
    intro x
    cases h : ops.truthy x <;>
      simp [derefnullchecked.operator_star, derefnullchecked.operator_bool, h]
  refine ⟨rfl, rfl, rfl, rfl, ?_, ?_, rfl, ?_, ?_⟩
  · simp only [derefnullchecked.assign, std_swap, hstar]
    cases h : ops.truthy v <;> simp
  · simp only [derefnullchecked.assign, std_swap, hstar]
  · simp only [derefnullchecked.assign_nullptr, hstar, hnull]
    simp
  · simp only [derefnullchecked.assign, std_swap, hstar]

/-- C18, at raw pointers: `d` holds the pointer `3` and is assigned the null pointer `0`. -/
theorem derefnullchecked_check_not_cached_witness :
    rawPtr.truthy rawPtr.nullp = false ∧
    ((derefnullchecked.mk 3).assign 0).ptr = 0 ∧
    ((derefnullchecked.mk 3).copy_assign ⟨0⟩).ptr = 0 ∧
    ((derefnullchecked.mk 3).move_assign rawPtr ⟨0⟩).1.ptr = 0 ∧
    ((derefnullchecked.mk 3).assign 0).operator_bool rawPtr = rawPtr.truthy 0 ∧
    (((derefnullchecked.mk 3).assign 0).operator_star rawPtr = .error .mk ↔
      rawPtr.truthy 0 = false) ∧
    ((derefnullchecked.mk 3).assign 0).operator_star rawPtr =
      (if rawPtr.truthy 0 then .ok (rawPtr.deref 0) else .error .mk) ∧
    ((derefnullchecked.mk 3).assign_nullptr rawPtr).ptr = rawPtr.nullp ∧
    ((derefnullchecked.mk 3).assign_nullptr rawPtr).operator_star rawPtr = .error .mk ∧
    ((derefnullchecked.of_nullptr rawPtr).assign 0).operator_star rawPtr =
      (if rawPtr.truthy 0 then .ok (rawPtr.deref 0) else .error .mk) :=
  ⟨by decide, derefnullchecked_check_not_cached rawPtr (derefnullchecked.mk 3) 0 (by decide)⟩

end DerefTotal

/-! ## Swap on `derefnullchecked` -/

section CompareSwap

variable {P R : Type}

/-- C20. The member and free swaps of `derefnullchecked<P>` exchange the contents with another
`derefnullchecked<P>` or with a raw `P`, for any two values and with no check: afterwards the
first operand holds `y` and the second `x`, the statement returns, and a second swap restores
both operands. -/
theorem derefnullchecked_swap_exchanges (ops : PtrOps P R) (x y : P) :
    derefnullchecked.swap ⟨x⟩ ⟨y⟩ = (⟨y⟩, ⟨x⟩) ∧
    derefnullchecked.swap_P ⟨x⟩ y = (⟨y⟩, x) ∧
    swap_derefnullchecked ⟨x⟩ ⟨y⟩ = (⟨y⟩, ⟨x⟩) ∧
    swap_derefnullchecked_P ⟨x⟩ y = (⟨y⟩, x) ∧
    swap_P_derefnullchecked x ⟨y⟩ = (y, ⟨x⟩) ∧
    derefnullchecked.swap (derefnullchecked.swap ⟨x⟩ ⟨y⟩).1 (derefnullchecked.swap ⟨x⟩ ⟨y⟩).2 =
      (⟨x⟩, ⟨y⟩) ∧
    derefnullchecked.swap_P (derefnullchecked.swap_P ⟨x⟩ y).1 (derefnullchecked.swap_P ⟨x⟩ y).2 =
      (⟨x⟩, y) ∧
    swap_derefnullchecked (swap_derefnullchecked ⟨x⟩ ⟨y⟩).1 (swap_derefnullchecked ⟨x⟩ ⟨y⟩).2 =
      (⟨x⟩, ⟨y⟩) ∧
    swap_derefnullchecked_P (swap_derefnullchecked_P ⟨x⟩ y).1 (swap_derefnullchecked_P ⟨x⟩ y).2 =
      (⟨x⟩, y) ∧
    swap_P_derefnullchecked (swap_P_derefnullchecked x ⟨y⟩).1 (swap_P_derefnullchecked x ⟨y⟩).2 =
      (x, ⟨y⟩) ∧
    (derefnullchecked.perform ops ⟨x⟩ (.member_swap ⟨y⟩)).2 = .returned ∧
    (derefnullchecked.perform ops ⟨x⟩ (.member_swap_P y)).2 = .returned ∧
    (derefnullchecked.perform ops ⟨x⟩ (.free_swap ⟨y⟩)).2 = .returned ∧
    (derefnullchecked.perform ops ⟨x⟩ (.free_swap_P y)).2 = .returned ∧
    (derefnullchecked.perform ops ⟨y⟩ (.free_swap_P_left x)).2 = .returned := by
  refine ⟨rfl, rfl, rfl, rfl, rfl, rfl, rfl, rfl, rfl, rfl, rfl, rfl, rfl, rfl, rfl⟩

end CompareSwap

/-! ## Queries on `notnull`, reference wrappers and `throw_if_null` -/

section Queries

variable {P R : Type}

/-- C21. On a `notnull<P>` in any state, `operator bool` reports `true` and `operator!`
reports `false`; `operator*` has no check and is the dereference of `P` on the contained
value, and `operator->` hands out the contained value. -/
theorem notnull_queries_are_constant (ops : PtrOps P R) (n : notnull P) :
    n.operator_bool = true ∧
    n.operator_not = false ∧
    n.operator_star ops = ops.deref n.ptr ∧
    n.operator_arrow = n.ptr ∧
    (notnull.unsafe_of_copy n.ptr).operator_bool = true ∧
    (notnull.unsafe_release ops n).2.operator_bool = true ∧
    (notnull.unsafe_release ops n).2.operator_not = false :=
  ⟨rfl, rfl, rfl, rfl, rfl, rfl, rfl⟩

/-- C22. Constructing a `notnull` from a `std::reference_wrapper` `r` runs the tagged in-place
constructor on `&r.get()`: there is no check and no throw, for any constructor of `P` from
the address the object holds what that constructor builds, and for a raw pointer it holds the
address of the object `r` refers to, so that `*n` is the lvalue `r.get()`: a read through `*n`
reads that object and a store through `*n` is read back through `r.get()`.  The address of a
live object is not null, and then the contained pointer is truthy. -/
theorem notnull_of_reference_wrapper (r : reference_wrapper) (mem : Memory Nat) (x : Nat) :
    (∀ (Q : Type) (ctor : Nat → Q × Nat),
      (notnull.of_reference_wrapper ctor r).ptr = (ctor (address_of r.get)).1) ∧
    (notnull.of_reference_wrapper (P_move_ctor objPtr) r).ptr = address_of r.get ∧
    (notnull.of_reference_wrapper (P_copy_ctor) r).ptr = address_of r.get ∧
    (notnull.of_reference_wrapper (P_move_ctor objPtr) r).operator_star objPtr = r.get ∧
    (notnull.of_reference_wrapper (P_move_ctor objPtr) r).decay = address_of r.get ∧
    mem ((notnull.of_reference_wrapper (P_move_ctor objPtr) r).operator_star objPtr) =
      mem r.get ∧
    (mem.write ((notnull.of_reference_wrapper (P_move_ctor objPtr) r).operator_star objPtr) x)
      r.get = x ∧
    (address_of r.get ≠ 0 →
      objPtr.truthy (notnull.of_reference_wrapper (P_move_ctor objPtr) r).ptr = true) := by
  refine ⟨fun _ _ => rfl, rfl, rfl, rfl, rfl, rfl, ?_, ?_⟩
  · simp [Memory.write, notnull.of_reference_wrapper, notnull.unsafe_in_place, P_move_ctor,
      notnull.operator_star, objPtr, address_of]
  · intro h
    simpa [notnull.of_reference_wrapper, notnull.unsafe_in_place, P_move_ctor, notnull.ptr,
      objPtr] using h

/-- C23. The function `throw_if_null(p)` throws `nullptr_error` exactly when `p` is falsy and
otherwise returns `p` itself, as a reference of the value category of the argument; on a
`notnull<P>` in any state, through the two `notnull` overloads or through the generic template
at a non-const lvalue, it does not throw and returns the argument unchanged. -/
theorem throw_if_null_returns_argument (ops : PtrOps P R) (c : ValueCategory) (p : P)
    (n : notnull P) :
    (throw_if_null ops p = .error .mk ↔ ops.truthy p = false) ∧
    throw_if_null ops p = (if ops.truthy p then .ok p else .error .mk) ∧
    throw_if_null_forward ops c p = (if ops.truthy p then .ok (p, c) else .error .mk) ∧
    throw_if_null_notnull n = n ∧
    throw_if_null_at_notnull n = .ok n := by
  refine ⟨?_, ?_, ?_, rfl, rfl⟩ <;>
    cases h : ops.truthy p <;> simp [throw_if_null, throw_if_null_forward, h]

end Queries

/-! ## Agreement of the two exchanges, move assignment, and the tagged constructors -/

section Agreement

variable {P R : Type}

/-- C26. Move assignment `a = std::move(b)` between a `notnull<P>` holding a truthy `x` and one
holding a truthy `y` is a swap: afterwards `a` holds `y` and `b` holds `x`, both truthy, the
statement returns, and the member `swap` and the free `swap` do the same. -/
theorem notnull_move_assign_is_swap (ops : PtrOps P R) (x y : P)
    (hx : ops.truthy x = true) (hy : ops.truthy y = true) :
    notnull.move_assign ⟨x⟩ ⟨y⟩ = (⟨y⟩, ⟨x⟩) ∧
    notnull.swap ⟨x⟩ ⟨y⟩ = (⟨y⟩, ⟨x⟩) ∧
    swap ⟨x⟩ ⟨y⟩ = ((⟨y⟩ : notnull P), (⟨x⟩ : notnull P)) ∧
    ops.truthy (notnull.move_assign ⟨x⟩ ⟨y⟩).1.ptr = true ∧
    ops.truthy (notnull.move_assign ⟨x⟩ ⟨y⟩).2.ptr = true ∧
    step ops [⟨x⟩, ⟨y⟩] (.move_assign 0 1) = ([⟨y⟩, ⟨x⟩], .returned) ∧
    step ops [⟨x⟩, ⟨y⟩] (.member_swap 0 1) = ([⟨y⟩, ⟨x⟩], .returned) ∧
    step ops [⟨x⟩, ⟨y⟩] (.free_swap 0 1) = ([⟨y⟩, ⟨x⟩], .returned) :=
  ⟨rfl, rfl, rfl, hy, hx, rfl, rfl, rfl⟩

/-- C26, at owning pointers to `1` and to `2`. -/
theorem notnull_move_assign_is_swap_witness :
    ownPtr.truthy (some 1) = true ∧ ownPtr.truthy (some 2) = true ∧
    notnull.move_assign (notnull.mk (some 1)) ⟨some 2⟩ = (⟨some 2⟩, ⟨some 1⟩) ∧
    notnull.swap (notnull.mk (some 1)) ⟨some 2⟩ = (⟨some 2⟩, ⟨some 1⟩) ∧
    swap (notnull.mk (some 1)) ⟨some 2⟩ =
      ((⟨some 2⟩ : notnull (Option Nat)), (⟨some 1⟩ : notnull (Option Nat))) ∧
    ownPtr.truthy (notnull.move_assign (notnull.mk (some 1)) ⟨some 2⟩).1.ptr = true ∧
    ownPtr.truthy (notnull.move_assign (notnull.mk (some 1)) ⟨some 2⟩).2.ptr = true ∧
    step ownPtr [⟨some 1⟩, ⟨some 2⟩] (.move_assign 0 1) =
      ([⟨some 2⟩, ⟨some 1⟩], .returned) ∧
    step ownPtr [⟨some 1⟩, ⟨some 2⟩] (.member_swap 0 1) =
      ([⟨some 2⟩, ⟨some 1⟩], .returned) ∧
    step ownPtr [⟨some 1⟩, ⟨some 2⟩] (.free_swap 0 1) =
      ([⟨some 2⟩, ⟨some 1⟩], .returned) :=
  ⟨by decide, by decide,
   notnull_move_assign_is_swap ownPtr (some 1) (some 2) (by decide) (by decide)⟩

/-- C27. The three constructors of `notnull<P>` tagged with
`detail::private_unsafe_notnull_from_nullable_t` have no check: for every `v`, falsy ones
included, they return a `notnull` whose `ptr()` is `v`; its `operator bool` reports `true`
whatever `v` is, so from a falsy `v` they produce a `notnull` holding a falsy value that
reports `true`, and the null raw pointer is such a `v`. -/
theorem notnull_tagged_constructors_unchecked (ops : PtrOps P R) (v : P) :
    (notnull.unsafe_of_copy v).ptr = v ∧
    (notnull.unsafe_of_move ops v).2.ptr = v ∧
    (notnull.unsafe_in_place P_copy_ctor v).2.ptr = v ∧
    (notnull.unsafe_in_place (P_move_ctor ops) v).2.ptr = v ∧
    (∀ (A : Type) (ctor : A → P × A) (args : A),
      (notnull.unsafe_in_place ctor args).2.ptr = (ctor args).1) ∧
    ops.truthy (notnull.unsafe_of_copy v).ptr = ops.truthy v ∧
    (notnull.unsafe_of_copy v).operator_bool = true ∧
    (notnull.unsafe_of_move ops v).2.operator_bool = true ∧
    (notnull.unsafe_in_place (P_move_ctor ops) v).2.operator_bool = true ∧
    (rawPtr.truthy (notnull.unsafe_of_copy (0 : Nat)).ptr = false ∧
      (notnull.unsafe_of_copy (0 : Nat)).operator_bool = true) :=
  ⟨rfl, rfl, rfl, rfl, fun _ _ _ => rfl, rfl, rfl, rfl, rfl, rfl, rfl⟩

end Agreement

end nullsafety
end hng
